import Mathlib

/-!
Shallow embedding of the concurrent download core of `humble-tools`:
the thread-safe `DownloadQueue` (src/humble_tools/sync/download_queue.py),
the per-row format flags and the download orchestration of
`BundleDetailsScreen` (src/humble_tools/sync/app.py), and the
configuration validation (src/humble_tools/sync/config.py).

Counters and the semaphore value are modelled as `Int` (Python integers
are unbounded and the claims are about non-negativity, which would be
trivial over `Nat`).  Methods that can raise are modelled as `Except
String`, where the string is the exception message from the source.
Because the source takes every counter mutation under one lock, a method
call is a pure state transition and a sequential trace of calls models
any interleaving of the locked sections.
-/

namespace HumbleTools

/-- Snapshot of the queue state, mirroring `QueueStats` in
`download_queue.py`. -/
structure QueueStats where
  active : Int
  queued : Int
  max_concurrent : Int
  deriving Repr, DecidableEq

/-- State of `DownloadQueue` (download_queue.py): the configured limit,
the value of `threading.Semaphore(max_concurrent)` and the two counters
guarded by `self._lock`. -/
structure DownloadQueue where
  max_concurrent : Int
  sem : Int
  active : Int
  queued : Int
  deriving Repr, DecidableEq

namespace DownloadQueue

/-- Constructor `DownloadQueue.__init__`: validates `max_concurrent`
(1..10) and initialises the semaphore to `max_concurrent` and both
counters to zero. -/
def init (max_concurrent : Int) : Except String DownloadQueue :=
  if max_concurrent < 1 then
    .error "max_concurrent must be at least 1"
  else if max_concurrent > 10 then
    .error "max_concurrent should not exceed 10"
  else
    .ok { max_concurrent := max_concurrent, sem := max_concurrent,
          active := 0, queued := 0 }

/-- Method `mark_queued`: increments the queued counter; never raises. -/
def mark_queued (q : DownloadQueue) : DownloadQueue :=
  { q with queued := q.queued + 1 }

/-- Method `mark_started`: raises `RuntimeError` when `self._queued <= 0`,
otherwise decrements `queued` and increments `active`.  The raise
happens before any field is mutated, so the error branch returns no new
state. -/
def mark_started (q : DownloadQueue) : Except String DownloadQueue :=
  if q.queued ≤ 0 then
    .error "Cannot start download: nothing queued"
  else
    .ok { q with queued := q.queued - 1, active := q.active + 1 }

/-- Method `mark_completed`: raises `RuntimeError` when `self._active <= 0`,
otherwise decrements `active`.  The raise happens before the mutation. -/
def mark_completed (q : DownloadQueue) : Except String DownloadQueue :=
  if q.active ≤ 0 then
    .error "Cannot complete download: nothing active"
  else
    .ok { q with active := q.active - 1 }

/-- Method `acquire(blocking=False)` on `threading.Semaphore`: succeeds and
decrements the value exactly when the value is positive, otherwise
returns `False` leaving the value unchanged. -/
def acquireNonBlocking (q : DownloadQueue) : Bool × DownloadQueue :=
  if 0 < q.sem then (true, { q with sem := q.sem - 1 })
  else (false, q)

/-- A granted blocking `acquire()`: the caller has waited until a slot
was free and the semaphore is decremented.  Used to model the
orchestrator's suspension point in a sequential trace where a slot is
available. -/
def acquireBlocking (q : DownloadQueue) : DownloadQueue :=
  { q with sem := q.sem - 1 }

/-- Method `release()` on `threading.Semaphore` (unbounded): increments the
value; never raises, never blocks. -/
def release (q : DownloadQueue) : DownloadQueue :=
  { q with sem := q.sem + 1 }

/-- Method `get_stats`: consistent snapshot of the counters and the limit. -/
def get_stats (q : DownloadQueue) : QueueStats :=
  { active := q.active, queued := q.queued,
    max_concurrent := q.max_concurrent }

end DownloadQueue

/-- Post-state view of `mark_started` for the error-atomicity claim:
the object's fields after the call, together with the raised message if
any.  In the source the `raise` statement precedes both assignments, so
a raising call leaves every field (and the semaphore) untouched. -/
def mark_started_exec (q : DownloadQueue) : DownloadQueue × Option String :=
  if q.queued ≤ 0 then
    (q, some "Cannot start download: nothing queued")
  else
    ({ q with queued := q.queued - 1, active := q.active + 1 }, none)

/-- Post-state view of `mark_completed`, analogous to
`mark_started_exec`. -/
def mark_completed_exec (q : DownloadQueue) : DownloadQueue × Option String :=
  if q.active ≤ 0 then
    (q, some "Cannot complete download: nothing active")
  else
    ({ q with active := q.active - 1 }, none)

/-- A call to one of the three counter operations of the queue. -/
inductive CounterOp where
  | markQueued
  | markStarted
  | markCompleted
  deriving Repr, DecidableEq

/-- Applies one counter operation; `none` when the operation raises,
i.e. when its state-machine guard (`queued > 0` for `mark_started`,
`active > 0` for `mark_completed`) is violated. -/
def applyCounterOp (q : DownloadQueue) : CounterOp → Option DownloadQueue
  | .markQueued => some q.mark_queued
  | .markStarted => q.mark_started.toOption
  | .markCompleted => q.mark_completed.toOption

/-- Runs a sequence of counter operations; `some` exactly when every
operation in the sequence respects its guard. -/
def runCounterOps (q : DownloadQueue) : List CounterOp → Option DownloadQueue
  | [] => some q
  | op :: ops =>
    match applyCounterOp q op with
    | none => none
    | some q' => runCounterOps q' ops

/-- A call to any of the five queue operations used by the
orchestrator, semaphore operations included. -/
inductive QueueOp where
  | markQueued
  | acquire
  | markStarted
  | markCompleted
  | release
  deriving Repr, DecidableEq

/-- Queue state extended with two ghost counts recording the
orchestrator's per-request discipline: `held` counts slots acquired
from the semaphore whose `mark_started` has not happened yet, and
`pending` counts requests whose `mark_completed` has happened but whose
`release` has not. -/
structure ProtoState where
  q : DownloadQueue
  held : Int
  pending : Int
  deriving Repr, DecidableEq

/-- Applies one queue operation under the orchestrator's discipline:
a (blocking) `acquire` completes only when the semaphore is positive,
each `mark_started` consumes a previously acquired slot, and each
`release` matches an earlier `mark_completed` — exactly the order
`mark_queued; acquire; mark_started; …; mark_completed; release` that
`download_format` performs for every request. -/
def applyQueueOp (s : ProtoState) : QueueOp → Option ProtoState
  | .markQueued => some { s with q := s.q.mark_queued }
  | .acquire =>
    if 0 < s.q.sem then
      some { s with q := { s.q with sem := s.q.sem - 1 }, held := s.held + 1 }
    else none
  | .markStarted =>
    if 0 < s.held then
      s.q.mark_started.toOption.map fun q' => { s with q := q', held := s.held - 1 }
    else none
  | .markCompleted =>
    s.q.mark_completed.toOption.map fun q' => { s with q := q', pending := s.pending + 1 }
  | .release =>
    if 0 < s.pending then
      some { s with q := s.q.release, pending := s.pending - 1 }
    else none

/-- Runs a sequence of queue operations under the orchestrator's
discipline. -/
def runQueueOps (s : ProtoState) : List QueueOp → Option ProtoState
  | [] => some s
  | op :: ops =>
    match applyQueueOp s op with
    | none => none
    | some s' => runQueueOps s' ops

/-- Invariant tying the counters, the ghost counts and the semaphore
together: every unit of capacity is either free in the semaphore,
acquired but not started, active, or completed but not yet released. -/
def ProtoInv (s : ProtoState) : Prop :=
  0 ≤ s.held ∧ 0 ≤ s.pending ∧ 0 ≤ s.q.queued ∧ 0 ≤ s.q.active ∧
    0 ≤ s.q.sem ∧ s.q.active + s.held + s.pending + s.q.sem = s.q.max_concurrent

/-- Repeated non-blocking `acquire` calls: returns the list of results
in order together with the final queue state. -/
def acquireRun (q : DownloadQueue) : Nat → List Bool × DownloadQueue
  | 0 => ([], q)
  | n + 1 =>
    let r := q.acquireNonBlocking
    let rest := acquireRun r.2 n
    (r.1 :: rest.1, rest.2)

/-- Python `dict.get(fmt, False)` over a string-keyed boolean dict,
modelled as an association list where the most recent assignment is at
the front. -/
def lookupFlag (m : List (String × Bool)) (k : String) : Bool :=
  match m.find? (fun p => p.1 == k) with
  | some p => p.2
  | none => false

/-- Python `dict[fmt] = v`: later assignments shadow earlier ones. -/
def setFlag (m : List (String × Bool)) (k : String) (v : Bool) :
    List (String × Bool) :=
  (k, v) :: m

/-- Status symbols from `constants.py` (`StatusSymbols`). -/
def StatusSymbols.DOWNLOADED : String := "✓"

/-- Status symbol shown while a download is in progress. -/
def StatusSymbols.DOWNLOADING : String := "⏳"

/-- Status symbol shown while a download is waiting in the queue. -/
def StatusSymbols.QUEUED : String := "🕒"

/-- Status symbol for a format that has not been downloaded. -/
def StatusSymbols.NOT_DOWNLOADED : String := " "

/-- Colour names from `constants.py` (`Colors`). -/
def Colors.SUCCESS : String := "green"

/-- Colour of the error/failure notifications. -/
def Colors.ERROR : String := "red"

/-- Colour of the downloading indicator. -/
def Colors.WARNING : String := "yellow"

/-- Colour of the queued indicator. -/
def Colors.INFO : String := "blue"

/-- The three per-format flag dictionaries of an `ItemFormatRow`:
`format_status` (completed, persisted), `format_downloading` and
`format_queued`. -/
structure ItemFormatRow where
  format_status : List (String × Bool)
  format_downloading : List (String × Bool)
  format_queued : List (String × Bool)
  deriving Repr, DecidableEq

/-- Method `ItemFormatRow._get_status_indicator` (app.py): indicator symbol and
colour for a format, checking `format_queued`, then
`format_downloading`, then `format_status`, each via `.get(fmt, False)`. -/
def get_status_indicator (row : ItemFormatRow) (fmt : String) :
    String × Option String :=
  if lookupFlag row.format_queued fmt then
    (StatusSymbols.QUEUED, some Colors.INFO)
  else if lookupFlag row.format_downloading fmt then
    (StatusSymbols.DOWNLOADING, some Colors.WARNING)
  else if lookupFlag row.format_status fmt then
    (StatusSymbols.DOWNLOADED, some Colors.SUCCESS)
  else
    (StatusSymbols.NOT_DOWNLOADED, none)

/-- Modelled from the spec (§4.2): the display precedence contract
`queued > downloading > completed > not-downloaded` over the three raw
flag booleans, written independently of the source to compare the two. -/
def statusIndicatorSpec (queuedFlag downloadingFlag completedFlag : Bool) :
    String × Option String :=
  if queuedFlag then (StatusSymbols.QUEUED, some Colors.INFO)
  else if downloadingFlag then (StatusSymbols.DOWNLOADING, some Colors.WARNING)
  else if completedFlag then (StatusSymbols.DOWNLOADED, some Colors.SUCCESS)
  else (StatusSymbols.NOT_DOWNLOADED, none)

/-- Method `BundleDetailsScreen._all_formats_downloaded` (app.py):
`all(item_row.format_status.get(fmt, False) for fmt in item_row.formats)`. -/
def all_formats_downloaded (format_status : List (String × Bool))
    (formats : List String) : Bool :=
  formats.all fun fmt => lookupFlag format_status fmt

/-- Dataclass `AppConfig` (config.py): the three validated integer fields. -/
structure AppConfig where
  max_concurrent_downloads : Int
  notification_duration : Int
  item_removal_delay : Int
  deriving Repr, DecidableEq

/-- Validation `AppConfig.__post_init__` validation: `max_concurrent_downloads ≥ 1`,
`notification_duration ≥ 1`, `item_removal_delay ≥ 0`; raises
`ValueError` otherwise.  There is no upper-bound check in the source. -/
def mkAppConfig (max_concurrent_downloads notification_duration
    item_removal_delay : Int) : Except String AppConfig :=
  if max_concurrent_downloads < 1 then
    .error "max_concurrent_downloads must be at least 1"
  else if notification_duration < 1 then
    .error "notification_duration must be at least 1"
  else if item_removal_delay < 0 then
    .error "item_removal_delay cannot be negative"
  else
    .ok { max_concurrent_downloads := max_concurrent_downloads,
          notification_duration := notification_duration,
          item_removal_delay := item_removal_delay }

/-- Result of the transfer collaborator
`download_manager.download_item`: returned `True`, returned `False`, or
raised (every exception reaches the generic handler of
`download_format`, the `HumbleCLIError`/`IOError`/`OSError` cases after
being wrapped in `DownloadError`). -/
inductive TransferOutcome where
  | success
  | failure
  | error (msg : String)
  deriving Repr, DecidableEq

/-- Observable actions of one `download_format` run, in program order. -/
inductive Event where
  | markQueued
  | acquire
  | markStarted
  | transfer
  | notifySuccess
  | notifyFailure
  | notifyError (msg : String)
  | scheduleRemoval
  | markCompleted
  | release
  deriving Repr, DecidableEq

/-- Combined state seen by one `download_format` run: the shared queue
and the row's three flag dictionaries. -/
structure OrchState where
  queue : DownloadQueue
  row : ItemFormatRow
  deriving Repr, DecidableEq

/-- The `finally` block of `download_format`:
`_handle_download_cleanup` (which calls `queue.mark_completed`) followed
by `queue.release`.  If `mark_completed` raises, the exception
propagates and the `release()` line is never reached. -/
def finallyBlock (s : OrchState) (evs : List Event) :
    OrchState × List Event × Option String :=
  match s.queue.mark_completed with
  | .error msg => (s, evs, some msg)
  | .ok q' =>
    ({ s with queue := q'.release },
      evs ++ [Event.markCompleted, Event.release], none)

/-- Method `BundleDetailsScreen.download_format` (app.py) for one request,
parameterised by the row's `selected_format` and by the outcome of the
transfer collaborator.  Returns the final state, the trace of observable
actions in order, and the message of an exception escaping the whole
method (only possible if `mark_completed` raises in the `finally`).
The three early-return guards, the queued/acquire/started transitions,
the three outcome handlers and the `finally` block follow the source
line by line; a `mark_started` raise is caught by the generic
`except Exception` handler like any other exception in the `try` body,
before `format_queued` has been cleared. -/
def downloadFormat (selected_format : Option String)
    (outcome : TransferOutcome) (s : OrchState) :
    OrchState × List Event × Option String :=
  match selected_format with
  | none => (s, [], none)
  | some fmt =>
    if lookupFlag s.row.format_downloading fmt then (s, [], none)
    else if lookupFlag s.row.format_queued fmt then (s, [], none)
    else if lookupFlag s.row.format_status fmt then (s, [], none)
    else
      -- _handle_download_queued
      let s1 : OrchState :=
        { queue := s.queue.mark_queued,
          row := { s.row with
            format_queued := setFlag s.row.format_queued fmt true } }
      -- blocking acquire of a slot
      let s2 : OrchState := { s1 with queue := s1.queue.acquireBlocking }
      let evs0 : List Event := [Event.markQueued, Event.acquire]
      match s2.queue.mark_started with
      | .error msg =>
        -- exception in _handle_download_started, caught by the generic
        -- handler: _handle_download_error clears the downloading flag
        let s3 : OrchState :=
          { s2 with row := { s2.row with
              format_downloading := setFlag s2.row.format_downloading fmt false } }
        finallyBlock s3 (evs0 ++ [Event.notifyError msg])
      | .ok q' =>
        -- _handle_download_started
        let s3 : OrchState :=
          { queue := q',
            row := { s2.row with
              format_queued := setFlag s2.row.format_queued fmt false,
              format_downloading := setFlag s2.row.format_downloading fmt true } }
        let evs1 : List Event := evs0 ++ [Event.markStarted, Event.transfer]
        match outcome with
        | .success =>
          -- _handle_download_success
          let s4 : OrchState :=
            { s3 with row := { s3.row with
                format_status := setFlag s3.row.format_status fmt true,
                format_downloading := setFlag s3.row.format_downloading fmt false } }
          finallyBlock s4 (evs1 ++ [Event.notifySuccess, Event.scheduleRemoval])
        | .failure =>
          -- _handle_download_failure
          let s4 : OrchState :=
            { s3 with row := { s3.row with
                format_downloading := setFlag s3.row.format_downloading fmt false } }
          finallyBlock s4 (evs1 ++ [Event.notifyFailure])
        | .error msg =>
          -- _handle_download_error
          let s4 : OrchState :=
            { s3 with row := { s3.row with
                format_downloading := setFlag s3.row.format_downloading fmt false } }
          finallyBlock s4 (evs1 ++ [Event.notifyError msg])

/-- Events of the transfer-outcome handler (`_handle_download_success`,
`_handle_download_failure` or `_handle_download_error`). -/
def outcomeEvents : TransferOutcome → List Event
  | .success => [Event.notifySuccess, Event.scheduleRemoval]
  | .failure => [Event.notifyFailure]
  | .error msg => [Event.notifyError msg]

/-- Row flags after the outcome handler of a normal run: `completed`
is set only on success, `downloading` and `queued` end up cleared. -/
def outcomeRow (r : ItemFormatRow) (fmt : String) : TransferOutcome → ItemFormatRow
  | .success =>
    { format_status := setFlag r.format_status fmt true,
      format_downloading := setFlag (setFlag r.format_downloading fmt true) fmt false,
      format_queued := setFlag (setFlag r.format_queued fmt true) fmt false }
  | _ =>
    { format_status := r.format_status,
      format_downloading := setFlag (setFlag r.format_downloading fmt true) fmt false,
      format_queued := setFlag (setFlag r.format_queued fmt true) fmt false }

theorem mark_started_toOption (q : DownloadQueue) :
    q.mark_started.toOption =
      if q.queued ≤ 0 then none
      else some { q with queued := q.queued - 1, active := q.active + 1 } := by
  unfold DownloadQueue.mark_started
  split <;> rfl

theorem mark_completed_toOption (q : DownloadQueue) :
    q.mark_completed.toOption =
      if q.active ≤ 0 then none
      else some { q with active := q.active - 1 } := by
  unfold DownloadQueue.mark_completed
  split <;> rfl

theorem protoInv_applyQueueOp {s s' : ProtoState} {op : QueueOp}
    (hinv : ProtoInv s) (h : applyQueueOp s op = some s') : ProtoInv s' := by
  obtain ⟨h1, h2, h3, h4, h5, h6⟩ := hinv
  cases op
  case markQueued =>
    rw [applyQueueOp, Option.some_inj] at h
    subst h
    simp only [ProtoInv, DownloadQueue.mark_queued]
    omega
  case acquire =>
    rw [applyQueueOp] at h
    split at h
    · rw [Option.some_inj] at h
      subst h
      simp only [ProtoInv]
      omega
    · exact absurd h (by simp)
  case markStarted =>
    rw [applyQueueOp] at h
    split at h
    · rw [mark_started_toOption] at h
      split at h
      · simp at h
      · rw [Option.map_some', Option.some_inj] at h
        subst h
        simp only [ProtoInv]
        omega
    · exact absurd h (by simp)
  case markCompleted =>
    rw [applyQueueOp, mark_completed_toOption] at h
    split at h
    · simp at h
    · rw [Option.map_some', Option.some_inj] at h
      subst h
      simp only [ProtoInv]
      omega
  case release =>
    rw [applyQueueOp] at h
    split at h
    · rw [Option.some_inj] at h
      subst h
      simp only [ProtoInv, DownloadQueue.release]
      omega
    · exact absurd h (by simp)

theorem protoInv_runQueueOps {s s' : ProtoState} {ops : List QueueOp}
    (hinv : ProtoInv s) (h : runQueueOps s ops = some s') : ProtoInv s' := by
  induction ops generalizing s with
  | nil =>
    rw [runQueueOps, Option.some_inj] at h
    exact h ▸ hinv
  | cons op ops ih =>
    rw [runQueueOps] at h
    split at h
    · exact absurd h (by simp)
    · exact ih (protoInv_applyQueueOp hinv (by assumption)) h

theorem nonneg_runCounterOps {q q' : DownloadQueue} {ops : List CounterOp}
    (hq : 0 ≤ q.queued) (ha : 0 ≤ q.active)
    (h : runCounterOps q ops = some q') : 0 ≤ q'.queued ∧ 0 ≤ q'.active := by
  induction ops generalizing q with
  | nil =>
    rw [runCounterOps, Option.some_inj] at h
    exact h ▸ ⟨hq, ha⟩
  | cons op ops ih =>
    rw [runCounterOps] at h
    split at h
    · exact absurd h (by simp)
    · rename_i q₁ happ
      cases op
      case markQueued =>
        rw [applyCounterOp, Option.some_inj] at happ
        subst happ
        exact ih (by simp only [DownloadQueue.mark_queued]; omega)
          (by simpa only [DownloadQueue.mark_queued] using ha) h
      case markStarted =>
        rw [applyCounterOp, mark_started_toOption] at happ
        split at happ
        · simp at happ
        · rw [Option.some_inj] at happ
          subst happ
          exact ih (by simp only; omega) (by simp only; omega) h
      case markCompleted =>
        rw [applyCounterOp, mark_completed_toOption] at happ
        split at happ
        · simp at happ
        · rw [Option.some_inj] at happ
          subst happ
          exact ih (by simpa only using hq) (by simp only; omega) h

theorem acquireRun_sem_drain (k : Nat) :
    ∀ q : DownloadQueue, q.sem = (k : Int) →
      acquireRun q (k + 1) =
        (List.replicate k true ++ [false], { q with sem := 0 }) := by
  induction k with
  | zero =>
    intro q hsem
    obtain ⟨m, s, a, d⟩ := q
    simp only at hsem
    subst hsem
    simp [acquireRun, DownloadQueue.acquireNonBlocking]
  | succ k ih =>
    intro q hsem
    have hpos : 0 < q.sem := by omega
    have hstep : q.acquireNonBlocking = (true, { q with sem := q.sem - 1 }) := by
      rw [DownloadQueue.acquireNonBlocking, if_pos hpos]
    have hsem' : ({ q with sem := q.sem - 1 } : DownloadQueue).sem = (k : Int) := by
      simp only
      push_cast at hsem ⊢
      omega
    have hrec := ih { q with sem := q.sem - 1 } hsem'
    have hunf : acquireRun q (k + 1 + 1) =
        (q.acquireNonBlocking.1 :: (acquireRun q.acquireNonBlocking.2 (k + 1)).1,
          (acquireRun q.acquireNonBlocking.2 (k + 1)).2) := rfl
    rw [hunf, hstep]
    simp [hrec, List.replicate_succ]

theorem lookupFlag_setFlag_same (m : List (String × Bool)) (k : String)
    (v : Bool) : lookupFlag (setFlag m k v) k = v := by
  simp [lookupFlag, setFlag, List.find?]

theorem lookupFlag_setFlag_other (m : List (String × Bool)) (k k' : String)
    (v : Bool) (h : k ≠ k') : lookupFlag (setFlag m k v) k' = lookupFlag m k' := by
  simp only [lookupFlag, setFlag, List.find?]
  rw [show ((k, v).1 == k') = false by simpa using h]

theorem downloadFormat_normal (s : OrchState) (fmt : String)
    (outcome : TransferOutcome)
    (hfd : lookupFlag s.row.format_downloading fmt = false)
    (hfq : lookupFlag s.row.format_queued fmt = false)
    (hfs : lookupFlag s.row.format_status fmt = false)
    (hq0 : 0 ≤ s.queue.queued) (ha0 : 0 ≤ s.queue.active) :
    downloadFormat (some fmt) outcome s =
      ({ queue := { max_concurrent := s.queue.max_concurrent,
                    sem := s.queue.sem - 1 + 1,
                    active := s.queue.active + 1 - 1,
                    queued := s.queue.queued + 1 - 1 },
         row := outcomeRow s.row fmt outcome },
        [Event.markQueued, Event.acquire, Event.markStarted, Event.transfer] ++
          outcomeEvents outcome ++ [Event.markCompleted, Event.release],
        none) := by
  obtain ⟨⟨M, S, A, Q⟩, r⟩ := s
  simp only at hfd hfq hfs hq0 ha0
  simp only [downloadFormat, hfd, hfq, hfs, Bool.false_eq_true, if_false,
    DownloadQueue.mark_queued, DownloadQueue.acquireBlocking]
  rw [DownloadQueue.mark_started, if_neg (by simp only; omega)]
  cases outcome
  case success =>
    simp only [finallyBlock]
    rw [DownloadQueue.mark_completed, if_neg (by simp only; omega)]
    simp only [DownloadQueue.release, outcomeRow, outcomeEvents]
    simp only [List.append_assoc, List.cons_append, List.nil_append]
  case failure =>
    simp only [finallyBlock]
    rw [DownloadQueue.mark_completed, if_neg (by simp only; omega)]
    simp only [DownloadQueue.release, outcomeRow, outcomeEvents]
    simp only [List.append_assoc, List.cons_append, List.nil_append]
  case error msg =>
    simp only [finallyBlock]
    rw [DownloadQueue.mark_completed, if_neg (by simp only; omega)]
    simp only [DownloadQueue.release, outcomeRow, outcomeEvents]
    simp only [List.append_assoc, List.cons_append, List.nil_append]

/-- C1 (counterexample): the counter guards alone do not bound `active`
by `max_concurrent`.  On a queue constructed with `max_concurrent = 1`,
the sequence `mark_queued, mark_queued, mark_started, mark_started`
respects every guard (`queued > 0` at each `mark_started`) yet leaves
`active = 2 > 1 = max_concurrent`. -/
theorem C1_counterexample :
    ((DownloadQueue.init 1).toOption.bind fun q =>
        runCounterOps q [CounterOp.markQueued, CounterOp.markQueued,
          CounterOp.markStarted, CounterOp.markStarted]).map
        (fun q => (decide (q.active ≤ q.max_concurrent), q.active,
          q.max_concurrent)) = some (false, 2, 1) := by
  rfl

/-- C1 (amended): for every guard-respecting sequence of `mark_queued`,
`mark_started`, `mark_completed` the two counters stay non-negative;
and for every sequence over all five queue operations that additionally
respects the semaphore discipline of the orchestrator (each
`mark_started` consumes a previously acquired slot, each `release`
matches an earlier `mark_completed`, `acquire` completes only when a
slot is free), starting from a freshly constructed queue, both counters
stay non-negative and `active` never exceeds `max_concurrent`. -/
theorem C1_counters_nonneg_active_bounded :
    (∀ (q q' : DownloadQueue) (ops : List CounterOp),
        0 ≤ q.queued → 0 ≤ q.active → runCounterOps q ops = some q' →
        0 ≤ q'.queued ∧ 0 ≤ q'.active) ∧
    (∀ (n : Int) (q : DownloadQueue) (ops : List QueueOp) (s' : ProtoState),
        DownloadQueue.init n = .ok q →
        runQueueOps { q := q, held := 0, pending := 0 } ops = some s' →
        0 ≤ s'.q.queued ∧ 0 ≤ s'.q.active ∧
          s'.q.active ≤ s'.q.max_concurrent) := by
  constructor
  · exact fun q q' ops hq ha h => nonneg_runCounterOps hq ha h
  · intro n q ops s' hinit hrun
    have hinv0 : ProtoInv { q := q, held := 0, pending := 0 } := by
      rw [DownloadQueue.init] at hinit
      split at hinit
      · exact absurd hinit (by simp)
      · split at hinit
        · exact absurd hinit (by simp)
        · rename_i hlt hgt
          rw [Except.ok.injEq] at hinit
          subst hinit
          simp only [ProtoInv]
          omega
    have hinv := protoInv_runQueueOps hinv0 hrun
    obtain ⟨h1, h2, h3, h4, h5, h6⟩ := hinv
    exact ⟨h3, h4, by omega⟩

/-- Witness for C1: a complete well-formed request on a fresh queue of
capacity 3 keeps the counters in range. -/
theorem C1_counters_nonneg_active_bounded_witness :
    (0 ≤ (DownloadQueue.mk 3 3 0 0).queued ∧
      0 ≤ (DownloadQueue.mk 3 3 0 0).active) ∧
    (0 ≤ (ProtoState.mk (DownloadQueue.mk 3 3 0 0) 0 0).q.queued ∧
      0 ≤ (ProtoState.mk (DownloadQueue.mk 3 3 0 0) 0 0).q.active ∧
      (ProtoState.mk (DownloadQueue.mk 3 3 0 0) 0 0).q.active ≤
        (ProtoState.mk (DownloadQueue.mk 3 3 0 0) 0 0).q.max_concurrent) := by
  constructor
  · exact C1_counters_nonneg_active_bounded.1 (DownloadQueue.mk 3 3 0 0)
      (DownloadQueue.mk 3 3 0 0)
      [CounterOp.markQueued, CounterOp.markStarted, CounterOp.markCompleted]
      (by decide) (by decide) (by rfl)
  · exact C1_counters_nonneg_active_bounded.2 3 (DownloadQueue.mk 3 3 0 0)
      [QueueOp.markQueued, QueueOp.acquire, QueueOp.markStarted,
        QueueOp.markCompleted, QueueOp.release]
      (ProtoState.mk (DownloadQueue.mk 3 3 0 0) 0 0) (by rfl) (by rfl)

/-- C4: on any reachable queue state (non-negative counters),
`mark_started` raises exactly when `queued = 0` and `mark_completed`
raises exactly when `active = 0`; otherwise they succeed. -/
theorem C4_raise_conditions (q : DownloadQueue)
    (hq : 0 ≤ q.queued) (ha : 0 ≤ q.active) :
    (q.mark_started.toOption = none ↔ q.queued = 0) ∧
    (q.mark_completed.toOption = none ↔ q.active = 0) := by
  constructor
  · rw [mark_started_toOption]
    by_cases hc : q.queued ≤ 0
    · rw [if_pos hc]
      simp only [true_iff]
      omega
    · rw [if_neg hc]
      simp only [iff_false, ne_eq, reduceCtorEq, false_iff]
      omega
  · rw [mark_completed_toOption]
    by_cases hc : q.active ≤ 0
    · rw [if_pos hc]
      simp only [true_iff]
      omega
    · rw [if_neg hc]
      simp only [iff_false, ne_eq, reduceCtorEq, false_iff]
      omega

/-- Witness for C4 at a queue with one queued and one active request. -/
theorem C4_raise_conditions_witness :
    ((DownloadQueue.mk 3 2 1 1).mark_started.toOption = none ↔
      (DownloadQueue.mk 3 2 1 1).queued = 0) ∧
    ((DownloadQueue.mk 3 2 1 1).mark_completed.toOption = none ↔
      (DownloadQueue.mk 3 2 1 1).active = 0) :=
  C4_raise_conditions (DownloadQueue.mk 3 2 1 1) (by decide) (by decide)

/-- C10: a `mark_started` or `mark_completed` call that raises leaves
every field of the queue — both counters and the semaphore — unchanged. -/
theorem C10_error_atomicity (q : DownloadQueue) :
    ((mark_started_exec q).2.isSome → (mark_started_exec q).1 = q) ∧
    ((mark_completed_exec q).2.isSome → (mark_completed_exec q).1 = q) := by
  constructor
  · intro h
    rw [mark_started_exec]
    rw [mark_started_exec] at h
    by_cases hc : q.queued ≤ 0
    · rw [if_pos hc]
    · rw [if_neg hc] at h
      simp at h
  · intro h
    rw [mark_completed_exec]
    rw [mark_completed_exec] at h
    by_cases hc : q.active ≤ 0
    · rw [if_pos hc]
    · rw [if_neg hc] at h
      simp at h

/-- Witness for C10 at the empty queue, where both operations raise. -/
theorem C10_error_atomicity_witness :
    (mark_started_exec (DownloadQueue.mk 3 3 0 0)).1 = DownloadQueue.mk 3 3 0 0 ∧
    (mark_completed_exec (DownloadQueue.mk 3 3 0 0)).1 = DownloadQueue.mk 3 3 0 0 :=
  ⟨(C10_error_atomicity (DownloadQueue.mk 3 3 0 0)).1 (by decide),
    (C10_error_atomicity (DownloadQueue.mk 3 3 0 0)).2 (by decide)⟩

/-- C5: a queue freshly constructed with `max_concurrent = N`
(1 ≤ N ≤ 10) grants exactly N consecutive non-blocking acquires, the
(N+1)th returns false, and after a single `release` exactly one further
non-blocking acquire succeeds (the next one fails again). -/
theorem C5_acquire_capacity (n : Nat) (q : DownloadQueue)
    (h1 : 1 ≤ n) (h2 : n ≤ 10)
    (hinit : DownloadQueue.init (n : Int) = .ok q) :
    (acquireRun q (n + 1)).1 = List.replicate n true ++ [false] ∧
    ((acquireRun q (n + 1)).2.release.acquireNonBlocking).1 = true ∧
    (((acquireRun q (n + 1)).2.release.acquireNonBlocking).2.acquireNonBlocking).1
      = false := by
  have hq : q = DownloadQueue.mk n n 0 0 := by
    rw [DownloadQueue.init] at hinit
    rw [if_neg (by omega), if_neg (by omega)] at hinit
    rw [Except.ok.injEq] at hinit
    exact hinit.symm
  subst hq
  have hdrain := acquireRun_sem_drain n (DownloadQueue.mk n n 0 0) rfl
  rw [hdrain]
  refine ⟨rfl, ?_, ?_⟩
  · simp [DownloadQueue.release, DownloadQueue.acquireNonBlocking]
  · simp [DownloadQueue.release, DownloadQueue.acquireNonBlocking]

/-- Witness for C5 at N = 3. -/
theorem C5_acquire_capacity_witness :
    (acquireRun (DownloadQueue.mk 3 3 0 0) 4).1 =
      List.replicate 3 true ++ [false] ∧
    ((acquireRun (DownloadQueue.mk 3 3 0 0) 4).2.release.acquireNonBlocking).1
      = true ∧
    (((acquireRun (DownloadQueue.mk 3 3 0 0)
        4).2.release.acquireNonBlocking).2.acquireNonBlocking).1 = false :=
  C5_acquire_capacity 3 (DownloadQueue.mk 3 3 0 0) (by decide) (by decide)
    (by rfl)

/-- C2: whenever a request passes the de-duplication guard and runs on
a queue in a reachable state, `mark_completed` and `release` each occur
exactly once in its trace, `release` is the last action, and no
exception escapes the method — for every transfer outcome. -/
theorem C2_cleanup_exactly_once (s : OrchState) (fmt : String)
    (outcome : TransferOutcome)
    (hfd : lookupFlag s.row.format_downloading fmt = false)
    (hfq : lookupFlag s.row.format_queued fmt = false)
    (hfs : lookupFlag s.row.format_status fmt = false)
    (hq0 : 0 ≤ s.queue.queued) (ha0 : 0 ≤ s.queue.active) :
    (downloadFormat (some fmt) outcome s).2.1.count Event.markCompleted = 1 ∧
    (downloadFormat (some fmt) outcome s).2.1.count Event.release = 1 ∧
    (downloadFormat (some fmt) outcome s).2.1.getLast? = some Event.release ∧
    (downloadFormat (some fmt) outcome s).2.2 = none := by
  rw [downloadFormat_normal s fmt outcome hfd hfq hfs hq0 ha0]
  cases outcome <;> exact ⟨rfl, rfl, rfl, rfl⟩

/-- Witness for C2: a failing transfer on a fresh queue of capacity 3. -/
theorem C2_cleanup_exactly_once_witness :
    (downloadFormat (some "EPUB") TransferOutcome.failure
        (OrchState.mk (DownloadQueue.mk 3 3 0 0)
          (ItemFormatRow.mk [] [] []))).2.1.count Event.markCompleted = 1 ∧
    (downloadFormat (some "EPUB") TransferOutcome.failure
        (OrchState.mk (DownloadQueue.mk 3 3 0 0)
          (ItemFormatRow.mk [] [] []))).2.1.count Event.release = 1 ∧
    (downloadFormat (some "EPUB") TransferOutcome.failure
        (OrchState.mk (DownloadQueue.mk 3 3 0 0)
          (ItemFormatRow.mk [] [] []))).2.1.getLast? = some Event.release ∧
    (downloadFormat (some "EPUB") TransferOutcome.failure
        (OrchState.mk (DownloadQueue.mk 3 3 0 0)
          (ItemFormatRow.mk [] [] []))).2.2 = none :=
  C2_cleanup_exactly_once
    (OrchState.mk (DownloadQueue.mk 3 3 0 0) (ItemFormatRow.mk [] [] []))
    "EPUB" TransferOutcome.failure rfl rfl rfl (by decide) (by decide)

/-- C3: a transfer that returns false or raises leaves the format
retryable — `downloading = false`, `completed = false`, `queued = false`
— releases exactly one slot, and the active count after the request
equals the active count before submission. -/
theorem C3_failure_leaves_retryable (s : OrchState) (fmt : String)
    (outcome : TransferOutcome) (hout : outcome ≠ TransferOutcome.success)
    (hfd : lookupFlag s.row.format_downloading fmt = false)
    (hfq : lookupFlag s.row.format_queued fmt = false)
    (hfs : lookupFlag s.row.format_status fmt = false)
    (hq0 : 0 ≤ s.queue.queued) (ha0 : 0 ≤ s.queue.active) :
    lookupFlag (downloadFormat (some fmt) outcome s).1.row.format_downloading
      fmt = false ∧
    lookupFlag (downloadFormat (some fmt) outcome s).1.row.format_status
      fmt = false ∧
    lookupFlag (downloadFormat (some fmt) outcome s).1.row.format_queued
      fmt = false ∧
    (downloadFormat (some fmt) outcome s).2.1.count Event.release = 1 ∧
    (downloadFormat (some fmt) outcome s).1.queue.active = s.queue.active := by
  rw [downloadFormat_normal s fmt outcome hfd hfq hfs hq0 ha0]
  cases outcome
  case success => exact absurd rfl hout
  case failure =>
    refine ⟨?_, ?_, ?_, rfl, ?_⟩
    · exact lookupFlag_setFlag_same _ fmt false
    · exact hfs
    · exact lookupFlag_setFlag_same _ fmt false
    · simp only
      omega
  case error msg =>
    refine ⟨?_, ?_, ?_, rfl, ?_⟩
    · exact lookupFlag_setFlag_same _ fmt false
    · exact hfs
    · exact lookupFlag_setFlag_same _ fmt false
    · simp only
      omega

/-- Witness for C3: an erroring transfer on a fresh queue of capacity 3. -/
theorem C3_failure_leaves_retryable_witness :
    lookupFlag (downloadFormat (some "EPUB") (TransferOutcome.error "boom")
        (OrchState.mk (DownloadQueue.mk 3 3 0 0)
          (ItemFormatRow.mk [] [] []))).1.row.format_downloading
      "EPUB" = false ∧
    lookupFlag (downloadFormat (some "EPUB") (TransferOutcome.error "boom")
        (OrchState.mk (DownloadQueue.mk 3 3 0 0)
          (ItemFormatRow.mk [] [] []))).1.row.format_status "EPUB" = false ∧
    lookupFlag (downloadFormat (some "EPUB") (TransferOutcome.error "boom")
        (OrchState.mk (DownloadQueue.mk 3 3 0 0)
          (ItemFormatRow.mk [] [] []))).1.row.format_queued "EPUB" = false ∧
    (downloadFormat (some "EPUB") (TransferOutcome.error "boom")
        (OrchState.mk (DownloadQueue.mk 3 3 0 0)
          (ItemFormatRow.mk [] [] []))).2.1.count Event.release = 1 ∧
    (downloadFormat (some "EPUB") (TransferOutcome.error "boom")
        (OrchState.mk (DownloadQueue.mk 3 3 0 0)
          (ItemFormatRow.mk [] [] []))).1.queue.active =
      (OrchState.mk (DownloadQueue.mk 3 3 0 0)
        (ItemFormatRow.mk [] [] [])).queue.active :=
  C3_failure_leaves_retryable
    (OrchState.mk (DownloadQueue.mk 3 3 0 0) (ItemFormatRow.mk [] [] []))
    "EPUB" (TransferOutcome.error "boom") (by simp) rfl rfl rfl
    (by decide) (by decide)

/-- C6: submitting a download for a format that is already completed,
already queued or already downloading is a no-op: the state is returned
unchanged, no event (in particular no transfer and no counter change)
occurs, and nothing is raised. -/
theorem C6_duplicate_submission_noop (s : OrchState) (fmt : String)
    (outcome : TransferOutcome)
    (h : lookupFlag s.row.format_status fmt = true ∨
      lookupFlag s.row.format_queued fmt = true ∨
      lookupFlag s.row.format_downloading fmt = true) :
    downloadFormat (some fmt) outcome s = (s, [], none) := by
  simp only [downloadFormat]
  by_cases h1 : lookupFlag s.row.format_downloading fmt = true
  · rw [if_pos h1]
  · rw [if_neg h1]
    by_cases h2 : lookupFlag s.row.format_queued fmt = true
    · rw [if_pos h2]
    · rw [if_neg h2]
      by_cases h3 : lookupFlag s.row.format_status fmt = true
      · rw [if_pos h3]
      · rcases h with h | h | h
        · exact absurd h h3
        · exact absurd h h2
        · exact absurd h h1

/-- Witness for C6: re-submitting an already completed format. -/
theorem C6_duplicate_submission_noop_witness :
    downloadFormat (some "EPUB") TransferOutcome.success
        (OrchState.mk (DownloadQueue.mk 3 3 0 0)
          (ItemFormatRow.mk [("EPUB", true)] [] [])) =
      (OrchState.mk (DownloadQueue.mk 3 3 0 0)
        (ItemFormatRow.mk [("EPUB", true)] [] []), [], none) :=
  C6_duplicate_submission_noop
    (OrchState.mk (DownloadQueue.mk 3 3 0 0)
      (ItemFormatRow.mk [("EPUB", true)] [] []))
    "EPUB" TransferOutcome.success (Or.inl rfl)

/-- C7 (counterexample): `AppConfig.__post_init__` has no upper-bound
check, so `max_concurrent_downloads = 11` — outside the claimed range
1..10 — constructs successfully instead of failing fast. -/
theorem C7_counterexample :
    (11 : Int) > 10 ∧
    mkAppConfig 11 5 10 = Except.ok (AppConfig.mk 11 5 10) := by
  exact ⟨by decide, rfl⟩

/-- C7 (amended): configuration construction succeeds exactly when
`max_concurrent_downloads ≥ 1`, `notification_duration ≥ 1` and
`item_removal_delay ≥ 0`; each violated lower bound fails fast with a
descriptive error.  The upper bound 10 on concurrency is enforced by
the queue constructor, not by the configuration. -/
theorem C7_config_validation (m n i : Int) :
    (∃ c, mkAppConfig m n i = Except.ok c) ↔ 1 ≤ m ∧ 1 ≤ n ∧ 0 ≤ i := by
  rw [mkAppConfig]
  by_cases h1 : m < 1
  · rw [if_pos h1]
    simp only [reduceCtorEq, exists_false, false_iff]
    omega
  · rw [if_neg h1]
    by_cases h2 : n < 1
    · rw [if_pos h2]
      simp only [reduceCtorEq, exists_false, false_iff]
      omega
    · rw [if_neg h2]
      by_cases h3 : i < 0
      · rw [if_pos h3]
        simp only [reduceCtorEq, exists_false, false_iff]
        omega
      · rw [if_neg h3]
        simp only [Except.ok.injEq, exists_eq', true_iff]
        omega

/-- Witness for C7: the defaults (3, 5, 10) construct successfully. -/
theorem C7_config_validation_witness :
    ∃ c, mkAppConfig 3 5 10 = Except.ok c :=
  (C7_config_validation 3 5 10).mpr (by decide)

/-- C8: `_all_formats_downloaded` is true iff every format in the list
has `completed = true`; for an empty format list it is vacuously true. -/
theorem C8_all_formats_downloaded_iff
    (format_status : List (String × Bool)) (formats : List String) :
    (all_formats_downloaded format_status formats = true ↔
      ∀ fmt ∈ formats, lookupFlag format_status fmt = true) ∧
    all_formats_downloaded format_status [] = true := by
  constructor
  · simp [all_formats_downloaded, List.all_eq_true]
  · rfl

theorem lookupFlag_singleton (k : String) (v : Bool) :
    lookupFlag [(k, v)] k = v := by
  simp [lookupFlag, List.find?]

/-- C9: on every one of the eight combinations of the `queued`,
`downloading` and `completed` flags — including the ones violating the
at-most-one-of-queued/downloading invariant — the indicator computed by
the source equals the spec's fixed precedence
queued > downloading > completed > not-downloaded. -/
theorem C9_status_indicator_precedence (qf df cf : Bool) (fmt : String) :
    get_status_indicator
        (ItemFormatRow.mk [(fmt, cf)] [(fmt, df)] [(fmt, qf)]) fmt =
      statusIndicatorSpec qf df cf := by
  simp only [get_status_indicator, statusIndicatorSpec, lookupFlag_singleton]

end HumbleTools


